import Mathlib

/-!
Verification of mocksh (src/mocksh.py), a wrapper around subprocess for
function-like process calling.  The Python source is shallowly embedded:
Python values that can flow through the argument marshaller are an inductive
type, fallible Python code returns `Except PyErr`, and the mutable
`CommandError._subclasses` memo table is threaded explicitly as a state value.
-/

namespace Mocksh

/-- Python exceptions that the embedded code can raise. -/
inductive PyErr where
  | typeError (msg : String)
  | valueError (msg : String)
  | timeoutExpired
  | ioError (errno : Int)
  | exn (name : String)
deriving DecidableEq, Repr

/-- A Python value as it may appear among the positional arguments or option
values handed to the marshaller (`_parse`).  `str`, `bytes` and `pathlike`
are the members of `_STR_TYPES`; `pyTrue`/`pyFalse` are the two `bool`
singletons (whose type inherits an explicit `__str__` from `int`); `other`
is any further object, carrying `some s` when its type defines an explicit
(non-`object`) `__str__` producing `s`, and `none` when it does not. -/
inductive PyVal where
  | pyTrue
  | pyFalse
  | str (s : String)
  | bytes (b : List Nat)
  | pathlike (p : String)
  | other (tyName : String) (strRepr : Option String)
deriving DecidableEq, Repr

/-- Python `str.replace` for a one-character pattern and replacement (the
source only ever replaces underscores by dashes), acting on the character
sequence. -/
def strReplaceChar (s : String) (pat repl : Char) : String :=
  String.mk (s.data.map (fun c => if c = pat then repl else c))

/-- Python `str.startswith` for a one-character prefix. -/
def strStartsWithChar (s : String) (c : Char) : Bool :=
  match s.data with
  | [] => false
  | c0 :: _ => c0 = c

/-- Python `str.endswith` for a one-character suffix. -/
def strEndsWithChar (s : String) (c : Char) : Bool :=
  match s.data.getLast? with
  | none => false
  | some c0 => c0 = c

/-- Python `s[:-1]`: drop the final character. -/
def strDropLast (s : String) : String :=
  String.mk s.data.dropLast

/-- Embedding of `_to_strlike` (mocksh.py lines 86-100): members of
`_STR_TYPES` pass through unchanged; an object whose type has only the
default `object.__str__` raises `TypeError`; anything else becomes `str(obj)`. -/
def _to_strlike : PyVal → Except PyErr PyVal
  | .str s => .ok (.str s)
  | .bytes b => .ok (.bytes b)
  | .pathlike p => .ok (.pathlike p)
  | .pyTrue => .ok (.str "True")
  | .pyFalse => .ok (.str "False")
  | .other ty r =>
    match r with
    | some s => .ok (.str s)
    | none => .error (.typeError ("Object of type " ++ ty ++ " cannot be converted to string"))

/-- Embedding of the option loop of `_parse` (mocksh.py lines 132-149),
iterating over the `opts` mapping in insertion order. -/
def _parse_opts : List (String × PyVal) → Except PyErr (List PyVal)
  | [] => .ok []
  | (key, value) :: rest =>
    let key1 := strReplaceChar key '_' '-'
    let key2 :=
      if !(strStartsWithChar key1 '-') then
        (if key1.length = 1 then "-" ++ key1 else "--" ++ key1)
      else key1
    if value = PyVal.pyFalse then
      _parse_opts rest
    else if value = PyVal.pyTrue then
      match _parse_opts rest with
      | .error e => .error e
      | .ok toks => .ok (.str key2 :: toks)
    else
      match _to_strlike value with
      | .error e => .error e
      | .ok v =>
        match _parse_opts rest with
        | .error e => .error e
        | .ok toks => .ok (.str key2 :: v :: toks)

/-- Embedding of the positional-argument loop of `_parse`
(mocksh.py lines 151-152). -/
def _parse_args : List PyVal → Except PyErr (List PyVal)
  | [] => .ok []
  | a :: rest =>
    match _to_strlike a with
    | .error e => .error e
    | .ok v =>
      match _parse_args rest with
      | .error e => .error e
      | .ok toks => .ok (v :: toks)

/-- Embedding of `_parse` (mocksh.py lines 103-152): named options first,
then positional arguments. -/
def _parse (args : List PyVal) (opts : List (String × PyVal)) :
    Except PyErr (List PyVal) :=
  match _parse_opts opts with
  | .error e => .error e
  | .ok optToks =>
    match _parse_args args with
    | .error e => .error e
    | .ok argToks => .ok (optToks ++ argToks)

/-- Modelled from the words of claim C1: the transformed option name
(underscores to dashes, then dash-prefixing by length unless a dash is
already present). -/
def specOptName (name : String) : String :=
  let name := strReplaceChar name '_' '-'
  if !(strStartsWithChar name '-') then
    (if name.length = 1 then "-" ++ name else "--" ++ name)
  else name

/-- Modelled from the words of claim C1: the tokens emitted for one named
option (nothing for `False`, just the flag for `True`, flag plus the
string-like value otherwise). -/
def specOptTokens (name : String) (value : PyVal) : Except PyErr (List PyVal) :=
  if value = PyVal.pyFalse then .ok []
  else if value = PyVal.pyTrue then .ok [.str (specOptName name)]
  else
    match _to_strlike value with
    | .error e => .error e
    | .ok v => .ok [.str (specOptName name), v]

/-- Fallible concat-map over a list, failing at the first error. -/
def exceptFlatMap {α β : Type} (f : α → Except PyErr (List β)) :
    List α → Except PyErr (List β)
  | [] => .ok []
  | a :: l =>
    match f a with
    | .error e => .error e
    | .ok bs =>
      match exceptFlatMap f l with
      | .error e => .error e
      | .ok rest => .ok (bs ++ rest)

/-- Fallible map over a list, failing at the first error. -/
def exceptMap {α β : Type} (f : α → Except PyErr β) :
    List α → Except PyErr (List β)
  | [] => .ok []
  | a :: l =>
    match f a with
    | .error e => .error e
    | .ok b =>
      match exceptMap f l with
      | .error e => .error e
      | .ok rest => .ok (b :: rest)

/-- Modelled from the words of claim C1: marshalling emits the named options
first (each per `specOptTokens`), then the positional arguments converted to
string-like form, in their original order. -/
def parseSpec (args : List PyVal) (opts : List (String × PyVal)) :
    Except PyErr (List PyVal) :=
  match exceptFlatMap (fun kv => specOptTokens kv.1 kv.2) opts with
  | .error e => .error e
  | .ok optToks =>
    match exceptMap _to_strlike args with
    | .error e => .error e
    | .ok argToks => .ok (optToks ++ argToks)

/-- Embedding of `_is_reserved` (mocksh.py lines 155-158): a name is reserved
exactly when it ends with an underscore and is longer than two characters. -/
def _is_reserved (name : String) : Bool :=
  strEndsWithChar name '_' && decide (name.length > 2)

/-- Python dict assignment `d[k] = v`: overrides an existing key in place,
otherwise appends at the end (insertion order). -/
def dictSet {α : Type} (d : List (String × α)) (k : String) (v : α) :
    List (String × α) :=
  if d.any (fun p => p.1 = k) then
    d.map (fun p => if p.1 = k then (k, v) else p)
  else d ++ [(k, v)]

/-- Python `d.setdefault(k, v)`: inserts only when the key is absent. -/
def dictSetdefault {α : Type} (d : List (String × α)) (k : String) (v : α) :
    List (String × α) :=
  if d.any (fun p => p.1 = k) then d else d ++ [(k, v)]

/-- Python dict lookup on an association list (keys are unique in the dicts
the source builds, so first match is the match). -/
def dlookup {κ α : Type} [DecidableEq κ] (k : κ) : List (κ × α) → Option α
  | [] => none
  | p :: rest => if p.1 = k then some p.2 else dlookup k rest

/-- Embedding of the `Command` template (mocksh.py lines 441-464): fixed
positional tokens and stored default options for `Process`. -/
structure Command where
  args_ : List PyVal
  opts_ : List (String × PyVal)
deriving DecidableEq, Repr

/-- Embedding of `Command.__call__` (mocksh.py lines 496-520) up to the point
where `Process(argv, **process_kwargs)` would be invoked: the result is the
pair of that `argv` and that `process_kwargs` mapping.  The single loop over
`opts` routes reserved names (trailing underscore stripped) into
`process_kwargs` and everything else into `cmd_opts`. -/
def Command.call (self : Command) (args : List PyVal)
    (opts : List (String × PyVal)) :
    Except PyErr (List PyVal × List (String × PyVal)) :=
  let acc := opts.foldl
    (fun acc kv =>
      if _is_reserved kv.1 then (dictSet acc.1 (strDropLast kv.1) kv.2, acc.2)
      else (acc.1, dictSet acc.2 kv.1 kv.2))
    (self.opts_, ([] : List (String × PyVal)))
  match _parse args acc.2 with
  | .error e => .error e
  | .ok marshalled =>
    .ok (self.args_ ++ marshalled, dictSetdefault acc.1 "wait" PyVal.pyTrue)

/-- Modelled from the words of claim C3 as amended: keyword arguments whose
name ends in an underscore and is longer than two characters are stripped of
the trailing underscore and merged over the template defaults; all the others
go to the marshaller with the positional arguments; argv is the template
tokens followed by the marshalled tokens; `wait` defaults to `True` unless
already present. -/
def callSpec (self : Command) (args : List PyVal)
    (opts : List (String × PyVal)) :
    Except PyErr (List PyVal × List (String × PyVal)) :=
  let reservedOpts := opts.filter (fun kv => strEndsWithChar kv.1 '_' && decide (kv.1.length > 2))
  let cmdOpts := opts.filter (fun kv => !(strEndsWithChar kv.1 '_' && decide (kv.1.length > 2)))
  let procKwargs := reservedOpts.foldl
    (fun d kv => dictSet d (strDropLast kv.1) kv.2) self.opts_
  let cmdDict := cmdOpts.foldl (fun d kv => dictSet d kv.1 kv.2) ([] : List (String × PyVal))
  match _parse args cmdDict with
  | .error e => .error e
  | .ok marshalled =>
    .ok (self.args_ ++ marshalled, dictSetdefault procKwargs "wait" PyVal.pyTrue)

/-- The host signal registry: signal names with their (positive) numbers, as
enumerated by `signal.Signals`.  The embedding is parameterized over it. -/
abbrev SignalRegistry := List (String × Nat)

/-- Embedding of `_SIGNAL_CODES` (mocksh.py lines 161-164): signal name to
negated signal number. -/
def _SIGNAL_CODES (R : SignalRegistry) : List (String × Int) :=
  R.map (fun p => (p.1, -(p.2 : Int)))

/-- Embedding of `_SIGNAL_NAMES` (mocksh.py lines 171-173): the inverse
mapping, negated number to signal name. -/
def _SIGNAL_NAMES (R : SignalRegistry) : List (Int × String) :=
  (_SIGNAL_CODES R).map (fun p => (p.2, p.1))

/-- An exit code as passed to `CommandError.code` / `CommandError()`:
an `int` or a `str` (a signal name). -/
inductive CodeArg where
  | int (n : Int)
  | str (s : String)
deriving DecidableEq, Repr

/-- Embedding of `CommandError.normalize_code` (mocksh.py lines 227-239). -/
def normalize_code (R : SignalRegistry) : CodeArg → Except PyErr (Int × Option String)
  | .str s =>
    match dlookup s (_SIGNAL_CODES R) with
    | some c => .ok (c, some s)
    | none => .error (.valueError ("Unknown signal " ++ s))
  | .int n =>
    match dlookup n (_SIGNAL_NAMES R) with
    | some name => .ok (n, some name)
    | none => .ok (n, none)

/-- One dynamically created `CommandError` subclass: its identity (fresh per
creation, standing for the distinct class object), its `__name__` and its
`returncode` member (mocksh.py lines 215-221). -/
structure ErrSubclass where
  sid : Nat
  name : String
  returncode : Int
deriving DecidableEq, Repr

/-- The mutable class-level state of `CommandError`: the `_subclasses` memo
dict keyed by normalized return code, plus a freshness counter supplying the
identity of the next class object created. -/
structure ErrState where
  table : List (Int × ErrSubclass)
  next : Nat
deriving DecidableEq, Repr

/-- ASCII single quote, for the `{!r}` formatting of a signal name. -/
def squote (s : String) : String :=
  String.singleton (Char.ofNat 39) ++ s ++ String.singleton (Char.ofNat 39)

/-- Embedding of `CommandError.code` (mocksh.py lines 209-223): normalize the
argument, create and memoize a fresh subclass for an unseen code, and return
the memoized subclass.  (`index = signame if signame else returncode`
follows Python truthiness: an empty name falls back to the number.) -/
def CommandError.code (R : SignalRegistry) (st : ErrState) (rc : CodeArg) :
    Except PyErr (ErrSubclass × ErrState) :=
  match normalize_code R rc with
  | .error e => .error e
  | .ok (returncode, signame) =>
    match dlookup returncode st.table with
    | some subclass => .ok (subclass, st)
    | none =>
      let indexStr :=
        match signame with
        | some s => if s = "" then toString returncode else squote s
        | none => toString returncode
      let subclass : ErrSubclass :=
        { sid := st.next, name := "CommandError[" ++ indexStr ++ "]",
          returncode := returncode }
      .ok (subclass, { table := st.table ++ [(returncode, subclass)], next := st.next + 1 })

/-- A Python class in the `CommandError` hierarchy: the base class itself or
one of the generated subclasses. -/
inductive ErrClass where
  | base
  | sub (s : ErrSubclass)
deriving DecidableEq, Repr

/-- The method resolution order of a generated subclass: itself, then the
base (it was created by `type(name, (cls,), members)` with `cls` the base). -/
def ErrSubclass.mro (s : ErrSubclass) : List ErrClass :=
  [ErrClass.sub s, ErrClass.base]

/-- A constructed `CommandError` instance: its concrete class and the
`returncode`/`process` members set by `__init__` (mocksh.py lines 191-195). -/
structure ErrInst where
  cls : ErrSubclass
  returncode : CodeArg
  process : Nat
deriving DecidableEq, Repr

/-- Python `isinstance` on the embedded hierarchy. -/
def isinstance (i : ErrInst) (c : ErrClass) : Bool :=
  decide (c ∈ i.cls.mro)

/-- Embedding of `CommandError.__new__` plus `__init__` on the base class
(mocksh.py lines 186-195): look up the specific subclass for the code and
build the instance with that class. -/
def CommandError.new (R : SignalRegistry) (st : ErrState) (rc : CodeArg)
    (process : Nat) : Except PyErr (ErrInst × ErrState) :=
  match CommandError.code R st rc with
  | .error e => .error e
  | .ok (subclass, st1) =>
    .ok ({ cls := subclass, returncode := rc, process := process }, st1)

/-- Calling a class in the hierarchy: the base runs `CommandError.__new__`;
a generated subclass runs its own `__new__`, which unconditionally raises
`TypeError` (mocksh.py lines 215-217). -/
def ErrClass.call (R : SignalRegistry) (st : ErrState) (cls : ErrClass)
    (rc : CodeArg) (process : Nat) : Except PyErr (ErrInst × ErrState) :=
  match cls with
  | .base => CommandError.new R st rc process
  | .sub _ => .error (.typeError "Cannot instantiate CommandError subclasses")

/-- A value that can stand in a stream slot of the `Popen` keyword arguments
or in a handle's stream attribute: the `subprocess.PIPE` constant, or an
open stream object (identified by a number). -/
inductive StreamVal where
  | pipeConst
  | streamObj (id : Nat)
deriving DecidableEq, Repr

/-- Literal input for a process: text or bytes. -/
inductive InputData where
  | text (s : String)
  | binary (b : List Nat)
deriving DecidableEq, Repr

/-- Outcome of the single `self.stdin.write(input)` call (an environment
oracle: the OS decides whether the write succeeds, fails with an `IOError`
carrying an errno, or raises some other exception). -/
inductive WriteRes where
  | ok
  | ioError (errno : Int)
  | otherExn (name : String)
deriving DecidableEq, Repr

/-- The stream-related keyword arguments handed to `subprocess.Popen`. -/
structure PopenKwargs where
  stdin : Option StreamVal
  stdout : Option StreamVal
  stderr : Option StreamVal
deriving DecidableEq, Repr

/-- Embedding of a constructed `mocksh.Process` handle: argv, the `check`
and `tail` attributes, the stdin specification that was passed down to the
OS spawn (`kwargs['stdin']` at the `super().__init__` call), and the
handle's own `stdin`/`stdout`/`stderr` attributes after `__init__`. -/
inductive Process where
  | mk (args : List PyVal) (check : Bool) (tail : Option Process)
      (osStdin stdin stdout stderr : Option StreamVal)

/-- The `args` attribute. -/
def Process.args : Process → List PyVal
  | .mk a _ _ _ _ _ _ => a

/-- The `check` attribute. -/
def Process.check : Process → Bool
  | .mk _ c _ _ _ _ _ => c

/-- The `tail` attribute. -/
def Process.tail : Process → Option Process
  | .mk _ _ t _ _ _ _ => t

/-- The stdin specification passed to the OS spawn. -/
def Process.osStdin : Process → Option StreamVal
  | .mk _ _ _ o _ _ _ => o

/-- The `stdin` attribute (after the rebinding of mocksh.py lines 312-313). -/
def Process.stdin : Process → Option StreamVal
  | .mk _ _ _ _ si _ _ => si

/-- The `stdout` attribute. -/
def Process.stdout : Process → Option StreamVal
  | .mk _ _ _ _ _ so _ => so

/-- The `stderr` attribute. -/
def Process.stderr : Process → Option StreamVal
  | .mk _ _ _ _ _ _ se => se

/-- The head of the pipeline chain a handle belongs to (the handle itself
when it has no predecessor). -/
def Process.head : Process → Process
  | .mk a c none os si so se => .mk a c none os si so se
  | .mk _ _ (some t) _ _ _ _ => Process.head t

/-- Embedding of mocksh.py lines 291-294: piping from a predecessor claims
the stdin slot (binding it to the predecessor's `stdout` attribute) and
conflicts with an explicitly redirected stdin. -/
def stdinResolve (tail : Option Process) (kwargs : PopenKwargs) :
    Except PyErr PopenKwargs :=
  match tail with
  | none => .ok kwargs
  | some t =>
    match kwargs.stdin with
    | some _ => .error (.valueError "Cannot pipe and set stdin at the same time")
    | none => .ok { kwargs with stdin := t.stdout }

/-- Embedding of mocksh.py lines 295-298: literal input claims the stdin
slot (with a fresh pipe) and conflicts with an occupied stdin slot. -/
def inputResolve (input : Option InputData) (kwargs : PopenKwargs) :
    Except PyErr PopenKwargs :=
  match input with
  | none => .ok kwargs
  | some _ =>
    match kwargs.stdin with
    | some _ => .error (.valueError "Cannot input and set stdin at the same time")
    | none => .ok { kwargs with stdin := some StreamVal.pipeConst }

/-- Embedding of mocksh.py lines 300-303: requesting capture of stdout
conflicts with an explicit redirection of it. -/
def captureOutResolve (capture_stdout : Bool) (kwargs : PopenKwargs) :
    Except PyErr PopenKwargs :=
  if capture_stdout then
    match kwargs.stdout with
    | some _ => .error (.valueError "Cannot capture stdout if redirecting it")
    | none => .ok { kwargs with stdout := some StreamVal.pipeConst }
  else .ok kwargs

/-- Embedding of mocksh.py lines 304-307: requesting capture of stderr
conflicts with an explicit redirection of it. -/
def captureErrResolve (capture_stderr : Bool) (kwargs : PopenKwargs) :
    Except PyErr PopenKwargs :=
  if capture_stderr then
    match kwargs.stderr with
    | some _ => .error (.valueError "Cannot capture stderr if redirecting it")
    | none => .ok { kwargs with stderr := some StreamVal.pipeConst }
  else .ok kwargs

/-- Embedding of mocksh.py lines 300-307: the stdout check, then the stderr
check. -/
def captureResolve (capture_stdout capture_stderr : Bool) (kwargs : PopenKwargs) :
    Except PyErr PopenKwargs :=
  match captureOutResolve capture_stdout kwargs with
  | .error e => .error e
  | .ok k1 => captureErrResolve capture_stderr k1

/-- Embedding of the stream-configuration phase of `Process.__init__`
(mocksh.py lines 291-307), producing the stream kwargs actually handed to
`subprocess.Popen`. -/
def resolveStdio (tail : Option Process) (input : Option InputData)
    (capture_stdout capture_stderr : Bool) (kwargs : PopenKwargs) :
    Except PyErr PopenKwargs :=
  match stdinResolve tail kwargs with
  | .error e => .error e
  | .ok k1 =>
    match inputResolve input k1 with
    | .error e => .error e
    | .ok k2 => captureResolve capture_stdout capture_stderr k2

/-- Whether a result failed with a configuration (`ValueError`) error. -/
def isConfigErr {α : Type} : Except PyErr α → Bool
  | .error (.valueError _) => true
  | _ => false

/-- Modelled from the words of claim C4 as amended: the conflicts that the
constructor rejects.  Piping combined with literal input is detected through
the occupied stdin slot, hence only when the predecessor's `stdout`
attribute is non-null. -/
def stdioConflict (tail : Option Process) (input : Option InputData)
    (capture_stdout capture_stderr : Bool) (kwargs : PopenKwargs) : Bool :=
  (tail.isSome && kwargs.stdin.isSome) ||
  (input.isSome && kwargs.stdin.isSome) ||
  (input.isSome && (tail.bind Process.stdout).isSome) ||
  (capture_stdout && kwargs.stdout.isSome) ||
  (capture_stderr && kwargs.stderr.isSome)

/-- Linux errno values named by the swallow set of mocksh.py line 326. -/
def EINVAL : Int := 22

/-- Linux errno of a broken pipe. -/
def EPIPE : Int := 32

/-- Embedding of the literal-input feeding step of `Process.__init__`
(mocksh.py lines 317-329): a missing stdin raises `TypeError`; otherwise the
input is written, `IOError`s with errno `EINVAL` or `EPIPE` are swallowed,
every other exception propagates, and the `finally` clause closes the stream
on every path.  Returns the overall outcome and whether the stream was
closed. -/
def feedInput : Option StreamVal → WriteRes → Except PyErr Unit × Bool
  | none, _ => (.error (.typeError "Could not find stdin"), false)
  | some _, .ok => (.ok (), true)
  | some _, .ioError e =>
    (if e = EINVAL ∨ e = EPIPE then .ok () else .error (.ioError e), true)
  | some _, .otherExn n => (.error (.exn n), true)

/-- The handle's `stdin` attribute after `__init__`: the predecessor's
`stdin` when piping (the rebinding of mocksh.py lines 312-313), otherwise
whatever stream `Popen` opened for it. -/
def initSelfStdin (tail : Option Process) (popenStdin : Option StreamVal) :
    Option StreamVal :=
  match tail with
  | some t => t.stdin
  | none => popenStdin

/-- Embedding of `Process.__init__` (mocksh.py lines 262-329): resolve the
stream configuration, spawn (`subprocess.Popen` opens a fresh stream for
each `PIPE` specification, numbered from `fb`), store `check`/`tail`, rebind
`stdin` to the predecessor's `stdin` when piping, and feed literal input.
The shell-string join and `universal_newlines` forcing of lines 274-289 are
not modelled (no claim concerns them), and the optional construction-time
wait of lines 331-337 is the separately modelled `PChain.wait`. -/
def Process.init (args : List PyVal) (check : Bool) (tail : Option Process)
    (input : Option InputData) (capture_stdout capture_stderr : Bool)
    (kwargs : PopenKwargs) (fb : Nat) (wr : WriteRes) : Except PyErr Process :=
  match resolveStdio tail input capture_stdout capture_stderr kwargs with
  | .error e => .error e
  | .ok kw =>
    let popenStdin := if kw.stdin = some StreamVal.pipeConst
      then some (StreamVal.streamObj fb) else none
    let popenStdout := if kw.stdout = some StreamVal.pipeConst
      then some (StreamVal.streamObj (fb + 1)) else none
    let popenStderr := if kw.stderr = some StreamVal.pipeConst
      then some (StreamVal.streamObj (fb + 2)) else none
    let selfStdin := initSelfStdin tail popenStdin
    let p := Process.mk args check tail kw.stdin selfStdin popenStdout popenStderr
    match input with
    | none => .ok p
    | some _ =>
      match feedInput selfStdin wr with
      | (.ok _, _) => .ok p
      | (.error e, _) => .error e

/-- The handles reachable by the constructor: every predecessor of a
constructed handle was itself constructed. -/
inductive Constructed : Process → Prop where
  | root (args check input cs ce kwargs fb wr p)
      (h : Process.init args check none input cs ce kwargs fb wr = .ok p) :
      Constructed p
  | pipe (args check t input cs ce kwargs fb wr p)
      (ht : Constructed t)
      (h : Process.init args check (some t) input cs ce kwargs fb wr = .ok p) :
      Constructed p

/-- A pipeline chain of live processes for the temporal model of
`Process.wait`: each stage is abstracted by the wallclock instant at which
the underlying OS process exits on its own, together with its `tail`
predecessor.  Time is exact (rational). -/
inductive PChain where
  | single (exitAt : ℚ)
  | pipe (exitAt : ℚ) (tail : PChain)
deriving DecidableEq, Repr

/-- The instant at which the whole chain has exited. -/
def PChain.maxExit : PChain → ℚ
  | .single e => e
  | .pipe e tl => max e tl.maxExit

/-- Semantics of `subprocess.Popen.wait` on one process: with no timeout it
blocks until the exit instant; with a timeout it first polls (so an already
exited process succeeds even on an exhausted budget) and otherwise blocks at
most until `now + t`, raising `TimeoutExpired` without killing the process.
The result is the instant at which the call returns. -/
def popenWait (exitAt now : ℚ) : Option ℚ → Except PyErr ℚ
  | none => .ok (max now exitAt)
  | some t =>
    if exitAt ≤ max now (now + t) then .ok (max now exitAt)
    else .error PyErr.timeoutExpired

/-- Embedding of `Process.wait` (mocksh.py lines 362-381): wait for the tail
first; with a timeout, pass the full budget to the tail and then wait on
this process with `rest = orig_time + timeout - _time()`. -/
def PChain.wait : PChain → ℚ → Option ℚ → Except PyErr ℚ
  | .single e, now, tmo => popenWait e now tmo
  | .pipe e tl, now, none =>
    match tl.wait now none with
    | .error err => .error err
    | .ok n1 => popenWait e n1 none
  | .pipe e tl, now, some t =>
    match tl.wait now (some t) with
    | .error err => .error err
    | .ok n1 => popenWait e n1 (some (now + t - n1))

/-- A concrete pipeline head for examples: spawned alone with `stdin=PIPE`
(so its `stdin` attribute is the fresh pipe stream 0) and nothing captured. -/
def sampleHead : Process :=
  Process.mk [PyVal.str "cat"] true none (some StreamVal.pipeConst)
    (some (StreamVal.streamObj 0)) none none

/-- A concrete handle piped from `sampleHead`. -/
def samplePiped : Process :=
  Process.mk [PyVal.str "grep"] true (some sampleHead) none
    (some (StreamVal.streamObj 0)) none none

theorem parse_opts_head (key : String) (value : PyVal) (rest : List (String × PyVal)) :
    _parse_opts ((key, value) :: rest) =
      match specOptTokens key value with
      | .error e => .error e
      | .ok toks =>
        match _parse_opts rest with
        | .error e => .error e
        | .ok more => .ok (toks ++ more) := by
  simp only [_parse_opts, specOptTokens, specOptName]
  by_cases hf : value = PyVal.pyFalse
  · simp only [if_pos hf]
    cases h : _parse_opts rest <;> simp [h]
  · by_cases ht : value = PyVal.pyTrue
    · simp only [if_neg hf, if_pos ht]
      cases h : _parse_opts rest <;> simp [h]
    · simp only [if_neg hf, if_neg ht]
      cases hs : _to_strlike value <;> cases h : _parse_opts rest <;> simp [hs, h]

theorem parse_opts_spec (opts : List (String × PyVal)) :
    _parse_opts opts = exceptFlatMap (fun kv => specOptTokens kv.1 kv.2) opts := by
  induction opts with
  | nil => rfl
  | cons kv rest ih =>
    obtain ⟨key, value⟩ := kv
    rw [parse_opts_head, ih]
    simp only [exceptFlatMap]
    cases specOptTokens key value <;>
      cases exceptFlatMap (fun kv => specOptTokens kv.1 kv.2) rest <;> rfl

theorem parse_args_spec (args : List PyVal) :
    _parse_args args = exceptMap _to_strlike args := by
  induction args with
  | nil => rfl
  | cons a rest ih =>
    simp only [_parse_args, exceptMap, ih]
    cases _to_strlike a <;> cases exceptMap _to_strlike rest <;> rfl

/-- C1: marshalling emits the named options first and then the positional
arguments in their original order; each option name has underscores replaced
by dashes and, unless it then already starts with a dash, gets one dash for
single-character names and two otherwise; a `False` value emits nothing, a
`True` value emits only the transformed name, and any other value emits the
transformed name followed by its string-like form. -/
theorem C1_marshal_order (args : List PyVal) (opts : List (String × PyVal)) :
    _parse args opts = parseSpec args opts := by
  unfold _parse parseSpec
  rw [parse_opts_spec, parse_args_spec]

theorem dlookup_append_self {κ α : Type} [DecidableEq κ] (l : List (κ × α))
    (k : κ) (v : α) (h : dlookup k l = none) :
    dlookup k (l ++ [(k, v)]) = some v := by
  induction l with
  | nil => simp [dlookup]
  | cons p rest ih =>
    by_cases hp : p.1 = k
    · rw [dlookup, if_pos hp] at h; exact absurd h (by simp)
    · rw [dlookup, if_neg hp] at h
      simpa [dlookup, hp] using ih h

theorem code_lookup_state (R : SignalRegistry) (st : ErrState) (rc : CodeArg)
    (k : ErrSubclass) (st1 : ErrState)
    (h : CommandError.code R st rc = .ok (k, st1)) :
    ∃ rcN sn, normalize_code R rc = .ok (rcN, sn) ∧
      dlookup rcN st1.table = some k := by
  cases hn : normalize_code R rc with
  | error e => simp [CommandError.code, hn] at h
  | ok nc =>
    obtain ⟨rcN, sn⟩ := nc
    refine ⟨rcN, sn, rfl, ?_⟩
    cases hl : dlookup rcN st.table with
    | some sub =>
      simp only [CommandError.code, hn, hl, Except.ok.injEq, Prod.mk.injEq] at h
      rw [← h.2, hl, h.1]
    | none =>
      simp only [CommandError.code, hn, hl, Except.ok.injEq, Prod.mk.injEq] at h
      rw [← h.2]
      simpa [← h.1] using dlookup_append_self st.table rcN _ hl

/-- C2: looking up the error kind for a code returns the identical memoized
kind object across repeated lookups (the state is unchanged and the same
entry is returned), and looking a kind up by signal name returns the very
same object as looking it up by the signal's negative numeric equivalent. -/
theorem C2_kind_identity (R : SignalRegistry) (st : ErrState) (rc : CodeArg)
    (k : ErrSubclass) (st1 : ErrState)
    (h : CommandError.code R st rc = .ok (k, st1)) :
    CommandError.code R st1 rc = .ok (k, st1) ∧
    (∀ s c, rc = CodeArg.str s → dlookup s (_SIGNAL_CODES R) = some c →
      CommandError.code R st1 (CodeArg.int c) = .ok (k, st1)) := by
  obtain ⟨rcN, sn, hn, hl⟩ := code_lookup_state R st rc k st1 h
  constructor
  · simp only [CommandError.code, hn, hl]
  · intro s c hs hc
    subst hs
    have hrc : rcN = c := by
      simp only [normalize_code, hc, Except.ok.injEq, Prod.mk.injEq] at hn
      exact hn.1.symm
    subst hrc
    cases hnm : dlookup rcN (_SIGNAL_NAMES R) <;>
      simp only [CommandError.code, normalize_code, hnm, hl]

/-- C2 witness: a concrete registry and empty memo table; the kind created
for the name SIGTERM is returned again, unchanged, when looked up by the
numeric code -15. -/
theorem C2_kind_identity_witness :
    CommandError.code [("SIGTERM", 15)] ⟨[], 0⟩ (.str "SIGTERM")
      = .ok (⟨0, "CommandError['SIGTERM']", -15⟩,
             ⟨[(-15, ⟨0, "CommandError['SIGTERM']", -15⟩)], 1⟩) ∧
    CommandError.code [("SIGTERM", 15)]
        ⟨[(-15, ⟨0, "CommandError['SIGTERM']", -15⟩)], 1⟩ (.int (-15))
      = .ok (⟨0, "CommandError['SIGTERM']", -15⟩,
             ⟨[(-15, ⟨0, "CommandError['SIGTERM']", -15⟩)], 1⟩) :=
  ⟨by rfl,
   (C2_kind_identity [("SIGTERM", 15)] ⟨[], 0⟩ (.str "SIGTERM") _ _ (by rfl)).2
     "SIGTERM" (-15) rfl (by rfl)⟩

theorem isinstance_self (i : ErrInst) : isinstance i (ErrClass.sub i.cls) = true := by
  simp [isinstance, ErrSubclass.mro]

theorem isinstance_base (i : ErrInst) : isinstance i ErrClass.base = true := by
  simp [isinstance, ErrSubclass.mro]

/-- C5: constructing the base error type with a code builds an instance of
the specific kind obtained from the very same `code` lookup (same
normalization and same memo state), and every such instance is an instance
of its own kind and of the base kind, so catching the base catches every
specific kind. -/
theorem C5_base_redirect (R : SignalRegistry) (st : ErrState) (rc : CodeArg)
    (p : Nat) (inst : ErrInst) (st1 : ErrState)
    (h : ErrClass.call R st ErrClass.base rc p = .ok (inst, st1)) :
    CommandError.code R st rc = .ok (inst.cls, st1) ∧
    isinstance inst (ErrClass.sub inst.cls) = true ∧
    isinstance inst ErrClass.base = true := by
  refine ⟨?_, isinstance_self inst, isinstance_base inst⟩
  cases hc : CommandError.code R st rc with
  | error e => simp [ErrClass.call, CommandError.new, hc] at h
  | ok pr =>
    obtain ⟨subclass, stx⟩ := pr
    simp only [ErrClass.call, CommandError.new, hc, Except.ok.injEq,
      Prod.mk.injEq] at h
    rw [← h.1, ← h.2]

/-- C5 witness: constructing the base with code 10 on an empty memo yields
an instance whose class is the freshly memoized kind for 10, and that
instance is an instance of the base kind. -/
theorem C5_base_redirect_witness :
    ErrClass.call [] ⟨[], 0⟩ ErrClass.base (CodeArg.int 10) 7
      = .ok (⟨⟨0, "CommandError[10]", 10⟩, CodeArg.int 10, 7⟩,
             ⟨[(10, ⟨0, "CommandError[10]", 10⟩)], 1⟩) ∧
    CommandError.code [] ⟨[], 0⟩ (CodeArg.int 10)
      = .ok (⟨0, "CommandError[10]", 10⟩, ⟨[(10, ⟨0, "CommandError[10]", 10⟩)], 1⟩) ∧
    isinstance ⟨⟨0, "CommandError[10]", 10⟩, CodeArg.int 10, 7⟩ ErrClass.base = true :=
  ⟨by rfl,
   (C5_base_redirect [] ⟨[], 0⟩ (CodeArg.int 10) 7 _ _ (by rfl)).1,
   (C5_base_redirect [] ⟨[], 0⟩ (CodeArg.int 10) 7
      ⟨⟨0, "CommandError[10]", 10⟩, CodeArg.int 10, 7⟩ _ (by rfl)).2.2⟩

/-- C6 counterexample: directly instantiating the base error kind with code
10 does not fail — it succeeds and returns an instance of the specific kind
for 10, so the claim that it fails with a type error is false. -/
theorem C6_counterexample :
    ErrClass.call [] ⟨[], 0⟩ ErrClass.base (CodeArg.int 10) 0
      = .ok (⟨⟨0, "CommandError[10]", 10⟩, CodeArg.int 10, 0⟩,
             ⟨[(10, ⟨0, "CommandError[10]", 10⟩)], 1⟩) := by rfl

/-- C6 as amended: direct instantiation of a generated specific error-kind
subclass fails with a type error, while direct instantiation of the base
kind succeeds (for any normalizable code) by redirecting to the specific
kind, which is an instance of the base. -/
theorem C6_subclass_guard (R : SignalRegistry) (st : ErrState) (rc : CodeArg)
    (p : Nat) (h : ∃ nc, normalize_code R rc = .ok nc) :
    (∃ inst st1, ErrClass.call R st ErrClass.base rc p = .ok (inst, st1) ∧
        isinstance inst ErrClass.base = true) ∧
    (∀ s, ErrClass.call R st (ErrClass.sub s) rc p
        = .error (.typeError "Cannot instantiate CommandError subclasses")) := by
  refine ⟨?_, fun s => rfl⟩
  obtain ⟨⟨rcN, sn⟩, hn⟩ := h
  cases hcall : ErrClass.call R st ErrClass.base rc p with
  | ok pr => exact ⟨pr.1, pr.2, rfl, isinstance_base pr.1⟩
  | error e =>
    exfalso
    cases hl : dlookup rcN st.table <;>
      simp [ErrClass.call, CommandError.new, CommandError.code, hn, hl] at hcall

/-- C6 witness: the hypothesis holds for code 10 on the host-free registry,
and the generated subclass for code 5 cannot be instantiated directly. -/
theorem C6_subclass_guard_witness :
    (∃ nc, normalize_code [] (CodeArg.int 10) = .ok nc) ∧
    ErrClass.call [] ⟨[], 0⟩ (ErrClass.sub ⟨5, "CommandError[5]", 5⟩)
        (CodeArg.int 10) 0
      = .error (.typeError "Cannot instantiate CommandError subclasses") :=
  ⟨⟨(10, none), by rfl⟩,
   (C6_subclass_guard [] ⟨[], 0⟩ (CodeArg.int 10) 0 ⟨(10, none), by rfl⟩).2
     ⟨5, "CommandError[5]", 5⟩⟩

theorem call_split_fold (opts : List (String × PyVal))
    (pk co : List (String × PyVal)) :
    opts.foldl
      (fun acc kv =>
        if _is_reserved kv.1 then (dictSet acc.1 (strDropLast kv.1) kv.2, acc.2)
        else (acc.1, dictSet acc.2 kv.1 kv.2)) (pk, co) =
    ((opts.filter (fun kv => _is_reserved kv.1)).foldl
        (fun d kv => dictSet d (strDropLast kv.1) kv.2) pk,
     (opts.filter (fun kv => !(_is_reserved kv.1))).foldl
        (fun d kv => dictSet d kv.1 kv.2) co) := by
  induction opts generalizing pk co with
  | nil => rfl
  | cons kv rest ih =>
    cases hr : _is_reserved kv.1 <;>
      simp [List.filter_cons, hr, ih]

/-- C3 counterexample: the keyword argument name `x_` ends in an underscore,
yet (being only two characters long) it is not reserved: it is routed to the
argument marshaller (emerging as the token `--x-`) instead of to Process
construction, so the claim that every trailing-underscore keyword is routed
to Process construction is false. -/
theorem C3_counterexample :
    Command.call ⟨[], []⟩ [] [("x_", PyVal.pyTrue)]
      = .ok ([PyVal.str "--x-"], [("wait", PyVal.pyTrue)]) := by rfl

/-- C3 as amended: keyword arguments whose name ends in an underscore and is
longer than two characters are stripped of the trailing underscore and
routed to Process construction, overriding the template's stored defaults;
every other keyword argument is routed to the marshaller together with the
positional arguments; the resulting argv is the template's accumulated
tokens followed by the marshalled tokens, and `wait` defaults to true unless
explicitly overridden. -/
theorem C3_call_routing (self : Command) (args : List PyVal)
    (opts : List (String × PyVal)) :
    Command.call self args opts = callSpec self args opts := by
  unfold Command.call callSpec
  rw [call_split_fold]
  simp only [_is_reserved]

/-- C4 counterexample: piping from a predecessor whose `stdout` attribute is
null, combined with injected literal input, is not rejected: the constructor
accepts the configuration (stdin silently becomes a fresh pipe), so the
claim that combining piping and literal input always fails at construction
time is false. -/
theorem C4_counterexample :
    resolveStdio (some (Process.mk [PyVal.str "a"] true none none none none none))
        (some (InputData.text "x")) false false ⟨none, none, none⟩
      = .ok ⟨some StreamVal.pipeConst, none, none⟩ := by rfl

/-- C4 as amended: the constructor fails with a configuration error exactly
when explicit stdin redirection is combined with piping, explicit stdin
redirection is combined with literal input, literal input is combined with
piping from a predecessor whose output stream is non-null, stdout capture is
combined with stdout redirection, or stderr capture is combined with stderr
redirection. -/
theorem C4_stream_conflicts (tail : Option Process) (input : Option InputData)
    (cs ce : Bool) (kwargs : PopenKwargs) :
    isConfigErr (resolveStdio tail input cs ce kwargs)
      = stdioConflict tail input cs ce kwargs := by
  obtain ⟨si, so, se⟩ := kwargs
  cases tail with
  | none =>
    cases input <;> cases si <;> cases cs <;> cases so <;> cases ce <;> cases se <;>
      simp [resolveStdio, stdinResolve, inputResolve, captureResolve,
        captureOutResolve, captureErrResolve, isConfigErr, stdioConflict]
  | some t =>
    cases hts : t.stdout <;>
      cases input <;> cases si <;> cases cs <;> cases so <;> cases ce <;> cases se <;>
        simp [resolveStdio, stdinResolve, inputResolve, captureResolve,
          captureOutResolve, captureErrResolve, isConfigErr, stdioConflict, hts]

theorem wait_none_eq (ch : PChain) (now : ℚ) :
    ch.wait now none = .ok (max now ch.maxExit) := by
  induction ch generalizing now with
  | single e => rfl
  | pipe e tl ih =>
    simp only [PChain.wait, ih, PChain.maxExit, popenWait, Except.ok.injEq]
    rw [max_assoc, max_comm tl.maxExit e]

theorem wait_some_ok (ch : PChain) (now t : ℚ) (h0 : 0 ≤ t)
    (h : ch.maxExit ≤ now + t) :
    ch.wait now (some t) = .ok (max now ch.maxExit) := by
  induction ch generalizing now t with
  | single e =>
    simp only [PChain.maxExit] at h
    simp only [PChain.wait, popenWait, PChain.maxExit]
    rw [if_pos (le_trans h (le_max_right _ _))]
  | pipe e tl ih =>
    simp only [PChain.maxExit, max_le_iff] at h
    obtain ⟨he, htl⟩ := h
    simp only [PChain.wait, ih now t h0 htl, popenWait]
    have h2 : max now tl.maxExit + (now + t - max now tl.maxExit) = now + t := by ring
    rw [h2, if_pos (le_trans he (le_max_right _ _)), PChain.maxExit]
    rw [max_assoc, max_comm tl.maxExit e]

theorem wait_some_err (ch : PChain) (now t : ℚ) (h0 : 0 ≤ t)
    (h : now + t < ch.maxExit) :
    ch.wait now (some t) = .error PyErr.timeoutExpired := by
  induction ch generalizing now t with
  | single e =>
    simp only [PChain.maxExit] at h
    simp only [PChain.wait, popenWait]
    rw [max_eq_right (by linarith : now ≤ now + t), if_neg (not_le.mpr h)]
  | pipe e tl ih =>
    simp only [PChain.maxExit] at h
    by_cases htl : now + t < tl.maxExit
    · simp only [PChain.wait, ih now t h0 htl]
    · push_neg at htl
      have he : now + t < e := by
        rcases lt_max_iff.mp h with h1 | h1
        · exact h1
        · exact absurd h1 (not_lt.mpr htl)
      simp only [PChain.wait, wait_some_ok tl now t h0 htl, popenWait]
      have h2 : max now tl.maxExit + (now + t - max now tl.maxExit) = now + t := by ring
      have h3 : max now tl.maxExit ≤ now + t := max_le (by linarith) htl
      rw [h2, max_eq_right h3, if_neg (not_le.mpr he)]

/-- C7: waiting on a pipeline with a (nonnegative) timeout shares the single
wallclock budget across the whole chain: it succeeds exactly when every
process in the chain (predecessor included) has exited by `now + t`, it
fails with a timeout error exactly when some process outlives the budget —
in particular a budget exhausted while waiting on the predecessor already
fails the overall wait, never silently succeeding — and a timeout never
terminates the processes: waiting again without a budget still completes
normally at the chain's own exit instant. -/
theorem C7_pipeline_wait (ch : PChain) (now t : ℚ) (h0 : 0 ≤ t) :
    (ch.wait now (some t) = .ok (max now ch.maxExit) ↔ ch.maxExit ≤ now + t) ∧
    (ch.wait now (some t) = .error PyErr.timeoutExpired ↔ now + t < ch.maxExit) ∧
    (∀ e tl, ch = PChain.pipe e tl → now + t < tl.maxExit →
      tl.wait now (some t) = .error PyErr.timeoutExpired ∧
      ch.wait now (some t) = .error PyErr.timeoutExpired) ∧
    ch.wait now none = .ok (max now ch.maxExit) := by
  refine ⟨⟨fun hok => ?_, wait_some_ok ch now t h0⟩,
          ⟨fun herr => ?_, wait_some_err ch now t h0⟩,
          ?_, wait_none_eq ch now⟩
  · by_contra hlt
    push_neg at hlt
    rw [wait_some_err ch now t h0 hlt] at hok
    exact absurd hok (by simp)
  · by_contra hle
    push_neg at hle
    rw [wait_some_ok ch now t h0 hle] at herr
    exact absurd herr (by simp)
  · rintro e tl rfl htl
    refine ⟨wait_some_err tl now t h0 htl, ?_⟩
    simp only [PChain.wait, wait_some_err tl now t h0 htl]

/-- C7 witness: a two-stage pipeline whose head exits at instant 10, waited
on from instant 0 with budget 2: the predecessor wait already times out and
so does the overall wait. -/
theorem C7_pipeline_wait_witness :
    (0 : ℚ) ≤ 2 ∧
    (PChain.single 10).wait 0 (some 2) = .error PyErr.timeoutExpired ∧
    (PChain.pipe 1 (PChain.single 10)).wait 0 (some 2)
      = .error PyErr.timeoutExpired :=
  ⟨by norm_num,
   ((C7_pipeline_wait (PChain.pipe 1 (PChain.single 10)) 0 2 (by norm_num)).2.2.1
      1 (PChain.single 10) rfl (by norm_num [PChain.maxExit])).1,
   ((C7_pipeline_wait (PChain.pipe 1 (PChain.single 10)) 0 2 (by norm_num)).2.2.1
      1 (PChain.single 10) rfl (by norm_num [PChain.maxExit])).2⟩

/-- C8: when literal input is fed to a present input stream, the stream is
closed on every path; the write succeeds overall exactly when the OS write
succeeded or failed with a broken-pipe-class error (`EPIPE`, or `EINVAL` as
raised on some platforms when the reader is gone), which is swallowed; every
other errno propagates as the same I/O error and any non-I/O exception
propagates unchanged. -/
theorem C8_input_feed (s : StreamVal) (w : WriteRes) :
    (feedInput (some s) w).2 = true ∧
    ((feedInput (some s) w).1 = .ok () ↔
      (w = WriteRes.ok ∨ w = WriteRes.ioError EINVAL ∨ w = WriteRes.ioError EPIPE)) ∧
    (∀ e, e ≠ EINVAL → e ≠ EPIPE →
      (feedInput (some s) (WriteRes.ioError e)).1 = .error (.ioError e)) ∧
    (∀ n, (feedInput (some s) (WriteRes.otherExn n)).1 = .error (.exn n)) := by
  refine ⟨?_, ?_, ?_, fun n => rfl⟩
  · cases w <;> rfl
  · cases w with
    | ok => simp [feedInput]
    | ioError e =>
      by_cases hP : e = EINVAL ∨ e = EPIPE <;> simp [feedInput, hP]
    | otherExn n => simp [feedInput]
  · intro e h1 h2
    simp [feedInput, h1, h2]

/-- C8 witness: a write failing with errno 13 (not in the broken-pipe class)
propagates as an I/O error, while the stream is still closed. -/
theorem C8_input_feed_witness :
    (feedInput (some (StreamVal.streamObj 0)) (WriteRes.ioError 13)).2 = true ∧
    (feedInput (some (StreamVal.streamObj 0)) (WriteRes.ioError 13)).1
      = .error (.ioError 13) :=
  ⟨(C8_input_feed (StreamVal.streamObj 0) (WriteRes.ioError 13)).1,
   (C8_input_feed (StreamVal.streamObj 0) (WriteRes.ioError 13)).2.2.1 13
     (by norm_num [EINVAL]) (by norm_num [EPIPE])⟩

/-- C9: string-like conversion passes text, raw bytes and path-like values
through unchanged; any other value converts to its string representation
exactly when its type defines an explicit, non-default string conversion,
and fails with a type error when it does not. -/
theorem C9_strlike :
    (∀ s, _to_strlike (PyVal.str s) = .ok (PyVal.str s)) ∧
    (∀ b, _to_strlike (PyVal.bytes b) = .ok (PyVal.bytes b)) ∧
    (∀ p, _to_strlike (PyVal.pathlike p) = .ok (PyVal.pathlike p)) ∧
    (∀ ty r, _to_strlike (PyVal.other ty (some r)) = .ok (PyVal.str r)) ∧
    (∀ ty, _to_strlike (PyVal.other ty none)
        = .error (.typeError ("Object of type " ++ ty ++ " cannot be converted to string"))) :=
  ⟨fun _ => rfl, fun _ => rfl, fun _ => rfl, fun _ _ => rfl, fun _ => rfl⟩

theorem init_inv (args : List PyVal) (check : Bool) (tail : Option Process)
    (input : Option InputData) (cs ce : Bool) (kwargs : PopenKwargs)
    (fb : Nat) (wr : WriteRes) (p : Process)
    (h : Process.init args check tail input cs ce kwargs fb wr = .ok p) :
    ∃ kw, resolveStdio tail input cs ce kwargs = .ok kw ∧
      p = Process.mk args check tail kw.stdin
        (initSelfStdin tail (if kw.stdin = some StreamVal.pipeConst
            then some (StreamVal.streamObj fb) else none))
        (if kw.stdout = some StreamVal.pipeConst
            then some (StreamVal.streamObj (fb + 1)) else none)
        (if kw.stderr = some StreamVal.pipeConst
            then some (StreamVal.streamObj (fb + 2)) else none) := by
  cases hr : resolveStdio tail input cs ce kwargs with
  | error e => simp [Process.init, hr] at h
  | ok kw =>
    refine ⟨kw, rfl, ?_⟩
    cases input with
    | none =>
      simp only [Process.init, hr, Except.ok.injEq] at h
      exact h.symm
    | some d =>
      simp only [Process.init, hr] at h
      split at h
      · simp only [Except.ok.injEq] at h
        exact h.symm
      · exact absurd h (by simp)

theorem captureResolve_stdin (cs ce : Bool) (k kw : PopenKwargs)
    (h : captureResolve cs ce k = .ok kw) : kw.stdin = k.stdin := by
  obtain ⟨si, so, se⟩ := k
  cases cs <;> cases so <;> cases ce <;> cases se <;>
    simp [captureResolve, captureOutResolve, captureErrResolve] at h <;>
    rw [← h]

theorem resolve_pipe_stdin (t : Process) (cs ce : Bool)
    (kwargs kw : PopenKwargs)
    (h : resolveStdio (some t) none cs ce kwargs = .ok kw) :
    kw.stdin = t.stdout := by
  cases hsi : kwargs.stdin with
  | some v => simp [resolveStdio, stdinResolve, hsi] at h
  | none =>
    simp only [resolveStdio, stdinResolve, hsi, inputResolve] at h
    exact captureResolve_stdin cs ce _ kw h

/-- C10 counterexample: piping from a predecessor whose `stdout` attribute
is null while also injecting literal input constructs a handle whose
OS-level stdin is a fresh pipe (`PIPE`), not the predecessor's output
stream, so the claim that the OS-level stdin of every piped process is bound
to the predecessor's output stream is false.  (The `stdin` attribute is
still rebound to the predecessor's `stdin`.) -/
theorem C10_counterexample :
    Process.init [PyVal.str "b"] true (some sampleHead)
        (some (InputData.text "x")) false false ⟨none, none, none⟩ 3 WriteRes.ok
      = .ok (Process.mk [PyVal.str "b"] true (some sampleHead)
          (some StreamVal.pipeConst) (some (StreamVal.streamObj 0)) none none) ∧
    sampleHead.stdout = none :=
  ⟨by rfl, by rfl⟩

/-- C10 as amended: for every constructed handle, the `stdin` attribute
equals the `stdin` attribute of the head of its pipeline chain (the
rebinding propagates transitively); and whenever a handle is constructed
with a predecessor, its `stdin` attribute is the predecessor's `stdin`, and
— provided no literal input was injected — the stdin specification handed to
the OS spawn is the predecessor's `stdout` stream. -/
theorem C10_stdin_rebind (p : Process) (hc : Constructed p) :
    p.stdin = p.head.stdin ∧
    (∀ args check t input cs ce kwargs fb wr,
      Process.init args check (some t) input cs ce kwargs fb wr = .ok p →
      p.stdin = t.stdin ∧ (input = none → p.osStdin = t.stdout)) := by
  constructor
  · induction hc with
    | root args check input cs ce kwargs fb wr p h =>
      obtain ⟨kw, hkw, hp⟩ := init_inv _ _ _ _ _ _ _ _ _ _ h
      subst hp
      rfl
    | pipe args check t input cs ce kwargs fb wr p ht h ih =>
      obtain ⟨kw, hkw, hp⟩ := init_inv _ _ _ _ _ _ _ _ _ _ h
      subst hp
      simpa only [Process.stdin, Process.head, initSelfStdin] using ih
  · intro args check t input cs ce kwargs fb wr h
    obtain ⟨kw, hkw, hp⟩ := init_inv _ _ _ _ _ _ _ _ _ _ h
    subst hp
    refine ⟨rfl, fun hinput => ?_⟩
    subst hinput
    simpa only [Process.osStdin] using resolve_pipe_stdin t cs ce kwargs kw hkw

/-- C10 witness: a concrete two-stage pipeline (`sampleHead` spawned with
`stdin=PIPE`, then a handle piped from it): the piped handle's `stdin`
attribute is the head's `stdin` (pipe stream 0) and its OS-level stdin is
the head's `stdout`. -/
theorem C10_stdin_rebind_witness :
    Constructed samplePiped ∧
    samplePiped.stdin = samplePiped.head.stdin ∧
    samplePiped.stdin = sampleHead.stdin ∧
    samplePiped.osStdin = sampleHead.stdout := by
  have hroot : Process.init [PyVal.str "cat"] true none none false false
      ⟨some StreamVal.pipeConst, none, none⟩ 0 WriteRes.ok = .ok sampleHead := by rfl
  have hpipe : Process.init [PyVal.str "grep"] true (some sampleHead) none
      false false ⟨none, none, none⟩ 3 WriteRes.ok = .ok samplePiped := by rfl
  have hc : Constructed samplePiped :=
    Constructed.pipe _ _ _ _ _ _ _ _ _ _
      (Constructed.root _ _ _ _ _ _ _ _ _ hroot) hpipe
  refine ⟨hc, (C10_stdin_rebind samplePiped hc).1, ?_, ?_⟩
  · exact ((C10_stdin_rebind samplePiped hc).2 _ _ _ _ _ _ _ _ _ hpipe).1
  · exact ((C10_stdin_rebind samplePiped hc).2 _ _ _ _ _ _ _ _ _ hpipe).2 rfl

end Mocksh
